import Mathlib

/-!
Shallow embedding of the study-strategy simulator
(`src/Python Game Test/study_simulator_test.py`).

Numbers: the Python source computes with floats; we model real arithmetic
exactly, using `ℚ` for the purely rational pipeline (effectiveness,
efficiency, the weight tables and penalties) and `ℝ` where `math.exp`
enters (logistic burnout curve, time-gain saturation).  Python's
`round(x, 1)` is modelled as round-to-nearest of `10*x` divided by 10
(`round` in Mathlib; the tie-breaking rule differs from IEEE
round-half-even only on exact half-way values, which no claim touches).
-/

namespace StudySim

/-- The `Strategy` dataclass: a user-described study plan. -/
structure Strategy where
  name : String
  method : String
  session_minutes : ℤ
  sessions_per_week : ℤ
  environment : String
  break_style : String
  course_difficulty : ℤ
  distraction_risk : ℤ
deriving DecidableEq

/-- The `Result` dataclass: the computed scores (already rounded to one
decimal place, hence rational) and advisory notes. -/
structure Result where
  effectiveness : ℚ
  sustainability : ℚ
  efficiency : ℚ
  burnout_risk : ℚ
  predicted_improvement : ℚ
  notes : List String
deriving DecidableEq

/-- `clamp(x, lo, hi) = max(lo, min(hi, x))`. -/
def clamp {α : Type} [LinearOrder α] (x lo hi : α) : α := max lo (min hi x)

/-- `logistic(x) = 1 / (1 + exp(-x))`. -/
noncomputable def logistic (x : ℝ) : ℝ := 1.0 / (1.0 + Real.exp (-x))

/-- Python `round(x, 1)` on a rational value. -/
def roundTo1 (x : ℚ) : ℚ := ((round (10 * x) : ℤ) : ℚ) / 10

/-- Python `round(x, 1)` on a real value; the result is a one-decimal
rational. -/
noncomputable def roundTo1R (x : ℝ) : ℚ := ((round (10 * x) : ℤ) : ℚ) / 10

/-- `METHOD_WEIGHTS.get(method, 0.60)`: the fixed method-weight table with
its fallback default. -/
def methodWeight (m : String) : ℚ :=
  if m = "practice_problems" then 1.00
  else if m = "flashcards" then 0.90
  else if m = "teaching_someone" then 0.95
  else if m = "summarizing" then 0.70
  else if m = "rereading" then 0.45
  else if m = "highlighting" then 0.40
  else if m = "group_study" then 0.75
  else 0.60

/-- `ENVIRONMENT_WEIGHTS.get(environment, 0.85)`. -/
def environmentWeight (e : String) : ℚ :=
  if e = "library" then 1.00
  else if e = "quiet_room" then 0.95
  else if e = "coffee_shop" then 0.85
  else if e = "dorm_room" then 0.80
  else 0.85

/-- `BREAK_WEIGHTS.get(break_style, 0.85)`. -/
def breakWeight (b : String) : ℚ :=
  if b = "pomodoro" then 1.00
  else if b = "structured" then 0.92
  else if b = "none" then 0.75
  else if b = "random" then 0.80
  else 0.85

/-- `total_minutes = session_minutes * sessions_per_week`. -/
def totalMinutes (s : Strategy) : ℤ := s.session_minutes * s.sessions_per_week

/-- The session-focus factor from the session-length branch. -/
def sessionFocus (s : Strategy) : ℚ :=
  if s.session_minutes ≤ 60 then 1.0
  else if s.session_minutes ≤ 90 then 0.88
  else 0.75

/-- The note appended by the session-length branch (empty, one, or the
other warning). -/
def sessionNotes (s : Strategy) : List String :=
  if s.session_minutes ≤ 60 then []
  else if s.session_minutes ≤ 90 then
    ["Session length is long; focus may drop after ~60 minutes."]
  else
    ["Very long sessions increase diminishing returns and fatigue."]

/-- `distraction_penalty = 1.0 - (distraction_risk - 1) * 0.06`. -/
def distractionPenalty (s : Strategy) : ℚ :=
  1.0 - ((s.distraction_risk : ℚ) - 1) * 0.06

/-- `difficulty_penalty = 1.0 - (course_difficulty - 1) * 0.05`. -/
def difficultyPenalty (s : Strategy) : ℚ :=
  1.0 - ((s.course_difficulty : ℚ) - 1) * 0.05

/-- `base_eff = 85.0 * method_w * env_w * break_w * session_focus *
distraction_penalty * difficulty_penalty`. -/
def baseEff (s : Strategy) : ℚ :=
  85.0 * methodWeight s.method * environmentWeight s.environment *
    breakWeight s.break_style * sessionFocus s * distractionPenalty s *
    difficultyPenalty s

/-- `effectiveness = clamp(base_eff, 0, 100)` (pre-rounding value). -/
def effectivenessVal (s : Strategy) : ℚ := clamp (baseEff s) 0 100

/-- `time_load = total_minutes / 300.0`. -/
def timeLoad (s : Strategy) : ℚ := (totalMinutes s : ℚ) / 300.0

/-- `burnout_raw = (time_load - 1.0) + (1.0 - break_w) +
(course_difficulty - 3) * 0.15`. -/
def burnoutRaw (s : Strategy) : ℚ :=
  (timeLoad s - 1.0) + (1.0 - breakWeight s.break_style) +
    ((s.course_difficulty : ℚ) - 3) * 0.15

/-- `burnout_risk = clamp(100.0 * logistic(burnout_raw), 0, 100)`
(pre-rounding value). -/
noncomputable def burnoutRiskVal (s : Strategy) : ℝ :=
  clamp (100.0 * logistic ((burnoutRaw s : ℝ))) 0 100

/-- `sustainability = clamp(100.0 - burnout_risk + (break_w - 0.8) * 10.0,
0, 100)` (pre-rounding value). -/
noncomputable def sustainabilityVal (s : Strategy) : ℝ :=
  clamp (100.0 - burnoutRiskVal s +
    ((breakWeight s.break_style : ℝ) - 0.8) * 10.0) 0 100

/-- `hours = total_minutes / 60.0`. -/
def hours (s : Strategy) : ℚ := (totalMinutes s : ℚ) / 60.0

/-- `diminishing = 1.0 / (1.0 + 0.12 * max(0.0, hours - 5.0))`. -/
def diminishing (s : Strategy) : ℚ :=
  1.0 / (1.0 + 0.12 * max 0.0 (hours s - 5.0))

/-- The efficiency branch: `0.0` when `hours <= 0`, otherwise
`clamp((effectiveness * diminishing) / (hours / 5.0), 0, 100)`
(pre-rounding value). -/
def efficiencyVal (s : Strategy) : ℚ :=
  if hours s ≤ 0 then 0.0
  else clamp ((effectivenessVal s * diminishing s) / (hours s / 5.0)) 0 100

/-- `time_gain = 12.0 * (1.0 - exp(-hours / 4.5))`. -/
noncomputable def timeGain (s : Strategy) : ℝ :=
  12.0 * (1.0 - Real.exp (-(hours s : ℝ) / 4.5))

/-- `method_bonus = 3.0 * (method_w - 0.6)`. -/
def methodBonus (s : Strategy) : ℚ := 3.0 * (methodWeight s.method - 0.6)

/-- `penalty = 4.0 * (burnout_risk / 100.0)`. -/
noncomputable def burnoutPenalty (s : Strategy) : ℝ :=
  4.0 * (burnoutRiskVal s / 100.0)

/-- `predicted_improvement = clamp(time_gain + method_bonus - penalty, 0,
15)` (pre-rounding value). -/
noncomputable def predictedImprovementVal (s : Strategy) : ℝ :=
  clamp (timeGain s + (methodBonus s : ℝ) - burnoutPenalty s) 0 15

/-- The recommendation-style notes appended after the scores, in rule
declaration order. -/
def ruleNotes (s : Strategy) : List String :=
  (if s.method = "rereading" ∨ s.method = "highlighting" then
    ["Consider adding active recall (practice problems or flashcards) for stronger retention."]
   else []) ++
  (if s.break_style = "none" ∨ s.break_style = "random" then
    ["Structured breaks can improve endurance and reduce burnout risk."]
   else []) ++
  (if (s.environment = "dorm_room" ∨ s.environment = "coffee_shop") ∧
      4 ≤ s.distraction_risk then
    ["High distraction risk: switching to a quieter environment may help."]
   else []) ++
  (if s.sessions_per_week ≤ 2 then
    ["Low weekly frequency: shorter, more frequent sessions often improve consistency."]
   else []) ++
  (if 600 < totalMinutes s then
    ["High weekly study load: consider reducing duration or adding recovery time to avoid burnout."]
   else [])

/-- The full notes list: the session-length note (if any) followed by the
rule-set notes. -/
def notesOf (s : Strategy) : List String := sessionNotes s ++ ruleNotes s

/-- `simulate(strategy)`: assemble the `Result`, rounding every numeric
output to one decimal place. -/
noncomputable def simulate (s : Strategy) : Result :=
  { effectiveness := roundTo1 (effectivenessVal s)
    sustainability := roundTo1R (sustainabilityVal s)
    efficiency := roundTo1 (efficiencyVal s)
    burnout_risk := roundTo1R (burnoutRiskVal s)
    predicted_improvement := roundTo1R (predictedImprovementVal s)
    notes := notesOf s }

/-- The message `say`-ed by `compare` when fewer than two entries are
available. -/
def insufficientMsg : String := "Create at least two scenarios to compare."

/-- What `compare` reports: either the insufficient-data message, or the
four superlative entries (highest effectiveness, best sustainability, best
efficiency, lowest burnout risk). -/
inductive CompareOutcome where
  | insufficient (msg : String)
  | report (bestEff bestSus bestEfy lowestBurn : Strategy × Result)
deriving DecidableEq

/-- Python `max(x :: xs, key=key)`: a left fold that replaces the current
best only on a strictly larger key, so the first occurrence wins ties. -/
def pymax {α β : Type} [LinearOrder β] (key : α → β) (x : α) (xs : List α) : α :=
  xs.foldl (fun best y => if key best < key y then y else best) x

/-- Python `min(x :: xs, key=key)`: replaces only on a strictly smaller
key, so the first occurrence wins ties. -/
def pymin {α β : Type} [LinearOrder β] (key : α → β) (x : α) (xs : List α) : α :=
  xs.foldl (fun best y => if key y < key best then y else best) x

/-- `compare(results)`: guard on fewer than two entries, otherwise report
the four superlatives selected by Python `max`/`min` over the input
order. -/
def compare (results : List (Strategy × Result)) : CompareOutcome :=
  if results.length < 2 then .insufficient insufficientMsg
  else
    match results with
    | [] => .insufficient insufficientMsg
    | x :: xs =>
        .report (pymax (fun p => p.2.effectiveness) x xs)
          (pymax (fun p => p.2.sustainability) x xs)
          (pymax (fun p => p.2.efficiency) x xs)
          (pymin (fun p => p.2.burnout_risk) x xs)

/-- The run-simulation step of the main loop acting on the results cache:
drop any entry with the same scenario name, then append the fresh
`(strategy, result)` pair. -/
noncomputable def runSimulationStep (cache : List (Strategy × Result))
    (s : Strategy) : List (Strategy × Result) :=
  (cache.filter fun p => p.1.name ≠ s.name) ++ [(s, simulate s)]

/-- The documented input domains of a Scenario (§3 of the spec): the CLI
rejects anything outside these ranges before `simulate` runs. -/
def validScenario (s : Strategy) : Prop :=
  10 ≤ s.session_minutes ∧ s.session_minutes ≤ 180 ∧
  1 ≤ s.sessions_per_week ∧ s.sessions_per_week ≤ 14 ∧
  1 ≤ s.course_difficulty ∧ s.course_difficulty ≤ 5 ∧
  1 ≤ s.distraction_risk ∧ s.distraction_risk ≤ 5

instance (s : Strategy) : Decidable (validScenario s) := by
  unfold validScenario; infer_instance

/-- The keys of `METHOD_WEIGHTS`. -/
def knownMethods : List String :=
  ["practice_problems", "flashcards", "teaching_someone", "summarizing",
    "rereading", "highlighting", "group_study"]

/-- The keys of `ENVIRONMENT_WEIGHTS`. -/
def knownEnvironments : List String :=
  ["library", "quiet_room", "coffee_shop", "dorm_room"]

/-- The keys of `BREAK_WEIGHTS`. -/
def knownBreakStyles : List String :=
  ["pomodoro", "structured", "none", "random"]

/-- `m` is the lowest-index entry of `l` attaining the maximal key: every
strictly earlier entry has a strictly smaller key, and no entry beats it. -/
def isFirstMax {α β : Type} [LinearOrder β] (key : α → β) (l : List α)
    (m : α) : Prop :=
  ∃ l₁ l₂, l = l₁ ++ m :: l₂ ∧ (∀ y ∈ l₁, key y < key m) ∧
    ∀ y ∈ l₂, key y ≤ key m

/-- `m` is the lowest-index entry of `l` attaining the minimal key. -/
def isFirstMin {α β : Type} [LinearOrder β] (key : α → β) (l : List α)
    (m : α) : Prop :=
  ∃ l₁ l₂, l = l₁ ++ m :: l₂ ∧ (∀ y ∈ l₁, key m < key y) ∧
    ∀ y ∈ l₂, key m ≤ key y

/-! ### Concrete scenarios and results used in witnesses -/

/-- The scenario singled out by the spec: practice problems in the
library with pomodoro breaks, 45 minutes x 4/week, difficulty 3,
distraction risk 2. -/
def specScenario : Strategy :=
  { name := "Plan A", method := "practice_problems", session_minutes := 45,
    sessions_per_week := 4, environment := "library",
    break_style := "pomodoro", course_difficulty := 3, distraction_risk := 2 }

/-- `specScenario` with a higher distraction risk, all else equal. -/
def specScenarioHighRisk : Strategy :=
  { specScenario with distraction_risk := 4 }

/-- `specScenario` with a harder course, all else equal. -/
def specScenarioHarder : Strategy :=
  { specScenario with course_difficulty := 5 }

/-- A scenario whose categorical fields are all unknown to the weight
tables. -/
def unknownScenario : Strategy :=
  { name := "Zen", method := "meditation", session_minutes := 30,
    sessions_per_week := 3, environment := "park",
    break_style := "napping", course_difficulty := 2, distraction_risk := 1 }

/-- Comparator demo strategy (first entry). -/
def stratA : Strategy :=
  { name := "A", method := "rereading", session_minutes := 30,
    sessions_per_week := 2, environment := "dorm_room",
    break_style := "none", course_difficulty := 2, distraction_risk := 3 }

/-- Comparator demo strategy (second entry). -/
def stratB : Strategy :=
  { name := "B", method := "flashcards", session_minutes := 50,
    sessions_per_week := 4, environment := "library",
    break_style := "pomodoro", course_difficulty := 3, distraction_risk := 2 }

/-- Comparator demo strategy (third entry). -/
def stratC : Strategy :=
  { name := "C", method := "practice_problems", session_minutes := 60,
    sessions_per_week := 5, environment := "quiet_room",
    break_style := "structured", course_difficulty := 4, distraction_risk := 1 }

/-- Demo result with effectiveness 70. -/
def resA : Result :=
  { effectiveness := 70, sustainability := 50, efficiency := 50,
    burnout_risk := 30, predicted_improvement := 5, notes := [] }

/-- Demo result with effectiveness 90 (first of the tie). -/
def resB : Result :=
  { effectiveness := 90, sustainability := 60, efficiency := 40,
    burnout_risk := 20, predicted_improvement := 6, notes := [] }

/-- Demo result with effectiveness 90 (second of the tie). -/
def resC : Result :=
  { effectiveness := 90, sustainability := 55, efficiency := 45,
    burnout_risk := 25, predicted_improvement := 7, notes := [] }

/-- The comparator demo input: effectiveness values [70, 90, 90]. -/
def cmpEntries : List (Strategy × Result) :=
  [(stratA, resA), (stratB, resB), (stratC, resC)]

/-- A demo cache holding results for scenarios named "B" and "C". -/
def demoCache : List (Strategy × Result) :=
  [(stratB, resB), (stratC, resC)]

/-- Evaluation rule for `roundTo1` at a concrete rational: `round` is the
integer `n` whenever `10 * x + 1/2` lies in `[n, n + 1)`. -/
theorem roundTo1_eq_of {x : ℚ} {n : ℤ} (h1 : (n : ℚ) ≤ 10 * x + 1 / 2)
    (h2 : 10 * x + 1 / 2 < (n : ℚ) + 1) : roundTo1 x = (n : ℚ) / 10 := by
  unfold roundTo1
  rw [round_eq, Int.floor_eq_iff.mpr ⟨h1, by exact_mod_cast h2⟩]

/-! ### Rounding and clamping lemmas -/

theorem round_mono' {α : Type} [LinearOrderedField α] [FloorRing α]
    {x y : α} (h : x ≤ y) : round x ≤ round y := by
  rw [round_eq, round_eq]
  exact Int.floor_mono (by linarith)

theorem roundTo1_mono {x y : ℚ} (h : x ≤ y) : roundTo1 x ≤ roundTo1 y := by
  unfold roundTo1
  have hr : round (10 * x) ≤ round (10 * y) := round_mono' (by linarith)
  have : ((round (10 * x) : ℤ) : ℚ) ≤ ((round (10 * y) : ℤ) : ℚ) := by
    exact_mod_cast hr
  linarith

theorem roundTo1_le_int {x : ℚ} {n : ℤ} (h : x ≤ (n : ℚ)) :
    roundTo1 x ≤ (n : ℚ) := by
  unfold roundTo1
  have hr : round (10 * x) ≤ 10 * n := by
    have h2 : round (10 * x) ≤ round (((10 * n : ℤ) : ℚ)) :=
      round_mono' (by push_cast; linarith)
    rwa [round_intCast] at h2
  have : ((round (10 * x) : ℤ) : ℚ) ≤ ((10 * n : ℤ) : ℚ) := by exact_mod_cast hr
  push_cast at this
  linarith

theorem roundTo1_int_le {x : ℚ} {n : ℤ} (h : (n : ℚ) ≤ x) :
    (n : ℚ) ≤ roundTo1 x := by
  unfold roundTo1
  have hr : 10 * n ≤ round (10 * x) := by
    have h2 : round (((10 * n : ℤ) : ℚ)) ≤ round (10 * x) :=
      round_mono' (by push_cast; linarith)
    rwa [round_intCast] at h2
  have : ((10 * n : ℤ) : ℚ) ≤ ((round (10 * x) : ℤ) : ℚ) := by exact_mod_cast hr
  push_cast at this
  linarith

theorem roundTo1R_le_int {x : ℝ} {n : ℤ} (h : x ≤ (n : ℝ)) :
    roundTo1R x ≤ (n : ℚ) := by
  unfold roundTo1R
  have hr : round (10 * x) ≤ 10 * n := by
    have h2 : round (10 * x) ≤ round (((10 * n : ℤ) : ℝ)) :=
      round_mono' (by push_cast; linarith)
    rwa [round_intCast] at h2
  have : ((round (10 * x) : ℤ) : ℚ) ≤ ((10 * n : ℤ) : ℚ) := by exact_mod_cast hr
  push_cast at this
  linarith

theorem roundTo1R_int_le {x : ℝ} {n : ℤ} (h : (n : ℝ) ≤ x) :
    (n : ℚ) ≤ roundTo1R x := by
  unfold roundTo1R
  have hr : 10 * n ≤ round (10 * x) := by
    have h2 : round (((10 * n : ℤ) : ℝ)) ≤ round (10 * x) :=
      round_mono' (by push_cast; linarith)
    rwa [round_intCast] at h2
  have : ((10 * n : ℤ) : ℚ) ≤ ((round (10 * x) : ℤ) : ℚ) := by exact_mod_cast hr
  push_cast at this
  linarith

theorem le_clamp {α : Type} [LinearOrder α] (x lo hi : α) :
    lo ≤ clamp x lo hi :=
  le_max_left lo (min hi x)

theorem clamp_le_hi {α : Type} [LinearOrder α] {lo hi : α} (x : α)
    (h : lo ≤ hi) : clamp x lo hi ≤ hi :=
  max_le h (min_le_left hi x)

theorem clamp_le {α : Type} [LinearOrder α] {x lo hi c : α}
    (hlo : lo ≤ c) (hx : x ≤ c) : clamp x lo hi ≤ c :=
  max_le hlo ((min_le_right hi x).trans hx)

theorem clamp_mono {α : Type} [LinearOrder α] {x y : α} (lo hi : α)
    (h : x ≤ y) : clamp x lo hi ≤ clamp y lo hi :=
  max_le_max le_rfl (min_le_min le_rfl h)

/-! ### Weight-table bounds -/

theorem methodWeight_pos (m : String) : 0 < methodWeight m := by
  unfold methodWeight; split_ifs <;> norm_num

theorem methodWeight_le_one (m : String) : methodWeight m ≤ 1 := by
  unfold methodWeight; split_ifs <;> norm_num

theorem environmentWeight_pos (e : String) : 0 < environmentWeight e := by
  unfold environmentWeight; split_ifs <;> norm_num

theorem environmentWeight_le_one (e : String) : environmentWeight e ≤ 1 := by
  unfold environmentWeight; split_ifs <;> norm_num

theorem breakWeight_pos (b : String) : 0 < breakWeight b := by
  unfold breakWeight; split_ifs <;> norm_num

theorem breakWeight_le_one (b : String) : breakWeight b ≤ 1 := by
  unfold breakWeight; split_ifs <;> norm_num

theorem sessionFocus_pos (s : Strategy) : 0 < sessionFocus s := by
  unfold sessionFocus; split_ifs <;> norm_num

theorem sessionFocus_le_one (s : Strategy) : sessionFocus s ≤ 1 := by
  unfold sessionFocus; split_ifs <;> norm_num

/-! ### Bounds of the pre-rounding score values -/

theorem effectivenessVal_nonneg (s : Strategy) : 0 ≤ effectivenessVal s :=
  le_clamp _ _ _

theorem effectivenessVal_le_100 (s : Strategy) : effectivenessVal s ≤ 100 :=
  clamp_le_hi _ (by norm_num)

theorem burnoutRiskVal_nonneg (s : Strategy) : (0 : ℝ) ≤ burnoutRiskVal s :=
  le_clamp _ _ _

theorem burnoutRiskVal_le_100 (s : Strategy) : burnoutRiskVal s ≤ 100 :=
  clamp_le_hi _ (by norm_num)

theorem sustainabilityVal_nonneg (s : Strategy) :
    (0 : ℝ) ≤ sustainabilityVal s :=
  le_clamp _ _ _

theorem sustainabilityVal_le_100 (s : Strategy) : sustainabilityVal s ≤ 100 :=
  clamp_le_hi _ (by norm_num)

theorem efficiencyVal_nonneg (s : Strategy) : 0 ≤ efficiencyVal s := by
  unfold efficiencyVal
  split
  · norm_num
  · exact le_clamp _ _ _

theorem efficiencyVal_le_100 (s : Strategy) : efficiencyVal s ≤ 100 := by
  unfold efficiencyVal
  split
  · norm_num
  · exact clamp_le_hi _ (by norm_num)

theorem predictedImprovementVal_nonneg (s : Strategy) :
    (0 : ℝ) ≤ predictedImprovementVal s :=
  le_clamp _ _ _

theorem predictedImprovementVal_le_15 (s : Strategy) :
    predictedImprovementVal s ≤ 15 :=
  clamp_le_hi _ (by norm_num)

/-! ### C1 -/

/-- C1: for every Scenario within the documented input domains, all five
numeric fields of the simulated Result lie in their clamp ranges
([0,100], and [0,15] for predicted improvement), after the final rounding
to one decimal place. -/
theorem simulate_fields_in_range (s : Strategy)
    (hm1 : 10 ≤ s.session_minutes) (hm2 : s.session_minutes ≤ 180)
    (hw1 : 1 ≤ s.sessions_per_week) (hw2 : s.sessions_per_week ≤ 14)
    (hd1 : 1 ≤ s.course_difficulty) (hd2 : s.course_difficulty ≤ 5)
    (hr1 : 1 ≤ s.distraction_risk) (hr2 : s.distraction_risk ≤ 5) :
    0 ≤ (simulate s).effectiveness ∧ (simulate s).effectiveness ≤ 100 ∧
    0 ≤ (simulate s).sustainability ∧ (simulate s).sustainability ≤ 100 ∧
    0 ≤ (simulate s).efficiency ∧ (simulate s).efficiency ≤ 100 ∧
    0 ≤ (simulate s).burnout_risk ∧ (simulate s).burnout_risk ≤ 100 ∧
    0 ≤ (simulate s).predicted_improvement ∧
      (simulate s).predicted_improvement ≤ 15 := by
  simp only [simulate]
  refine ⟨?_, ?_, ?_, ?_, ?_, ?_, ?_, ?_, ?_, ?_⟩
  · simpa using roundTo1_int_le (n := 0) (by simpa using effectivenessVal_nonneg s)
  · simpa using roundTo1_le_int (n := 100) (by simpa using effectivenessVal_le_100 s)
  · simpa using roundTo1R_int_le (n := 0) (by simpa using sustainabilityVal_nonneg s)
  · simpa using roundTo1R_le_int (n := 100) (by simpa using sustainabilityVal_le_100 s)
  · simpa using roundTo1_int_le (n := 0) (by simpa using efficiencyVal_nonneg s)
  · simpa using roundTo1_le_int (n := 100) (by simpa using efficiencyVal_le_100 s)
  · simpa using roundTo1R_int_le (n := 0) (by simpa using burnoutRiskVal_nonneg s)
  · simpa using roundTo1R_le_int (n := 100) (by simpa using burnoutRiskVal_le_100 s)
  · simpa using roundTo1R_int_le (n := 0) (by simpa using predictedImprovementVal_nonneg s)
  · simpa using roundTo1R_le_int (n := 15) (by simpa using predictedImprovementVal_le_15 s)

/-- C1 witness at the spec's own example scenario. -/
theorem simulate_fields_in_range_witness :
    0 ≤ (simulate specScenario).effectiveness ∧
      (simulate specScenario).effectiveness ≤ 100 ∧
    0 ≤ (simulate specScenario).sustainability ∧
      (simulate specScenario).sustainability ≤ 100 ∧
    0 ≤ (simulate specScenario).efficiency ∧
      (simulate specScenario).efficiency ≤ 100 ∧
    0 ≤ (simulate specScenario).burnout_risk ∧
      (simulate specScenario).burnout_risk ≤ 100 ∧
    0 ≤ (simulate specScenario).predicted_improvement ∧
      (simulate specScenario).predicted_improvement ≤ 15 :=
  simulate_fields_in_range specScenario (by decide) (by decide) (by decide)
    (by decide) (by decide) (by decide) (by decide) (by decide)

/-! ### C2 -/

/-- The effectiveness of the spec scenario evaluates to exactly 71.9 after
rounding (base value 85 x 0.94 x 0.90 = 71.91). -/
theorem specScenario_effectiveness_eval :
    (simulate specScenario).effectiveness = 71.9 := by
  have h : effectivenessVal specScenario = 71.91 := by
    norm_num [effectivenessVal, baseEff, methodWeight, environmentWeight,
      breakWeight, sessionFocus, distractionPenalty, difficultyPenalty, clamp,
      specScenario]
  have h2 : roundTo1 (effectivenessVal specScenario) = ((719 : ℤ) : ℚ) / 10 := by
    rw [h]; exact roundTo1_eq_of (by norm_num) (by norm_num)
  simp only [simulate, h2]
  norm_num

/-- C2 counterexample: the documented formula gives 71.9, not 78.1, for
the spec's reference scenario. -/
theorem specScenario_effectiveness_ne :
    ¬ (simulate specScenario).effectiveness = 78.1 := by
  rw [specScenario_effectiveness_eval]
  norm_num

/-- C2 (amended): the rounded effectiveness of the reference scenario
equals 71.9, the value the documented formula produces. -/
theorem specScenario_effectiveness :
    (simulate specScenario).effectiveness = 71.9 ∧
      roundTo1 (clamp (baseEff specScenario) 0 100) = 71.9 :=
  ⟨specScenario_effectiveness_eval, specScenario_effectiveness_eval⟩

/-! ### C3 -/

/-- C3: scoring is deterministic — `simulate` is a pure function of the
Scenario, so equal Scenarios yield identical Results (all five numeric
fields and the notes). -/
theorem simulate_deterministic (s₁ s₂ : Strategy) (h : s₁ = s₂) :
    simulate s₁ = simulate s₂ :=
  congrArg simulate h

/-- C3 witness: two invocations on the same concrete Scenario agree. -/
theorem simulate_deterministic_witness :
    simulate specScenario = simulate specScenario :=
  simulate_deterministic specScenario specScenario rfl

/-! ### Penalty-factor lemmas -/

theorem distractionPenalty_nonneg {s : Strategy}
    (h : s.distraction_risk ≤ 5) : 0 ≤ distractionPenalty s := by
  unfold distractionPenalty
  have : (s.distraction_risk : ℚ) ≤ 5 := by exact_mod_cast h
  linarith

theorem distractionPenalty_le_one {s : Strategy}
    (h : 1 ≤ s.distraction_risk) : distractionPenalty s ≤ 1 := by
  unfold distractionPenalty
  have : (1 : ℚ) ≤ (s.distraction_risk : ℚ) := by exact_mod_cast h
  linarith

theorem difficultyPenalty_nonneg {s : Strategy}
    (h : s.course_difficulty ≤ 5) : 0 ≤ difficultyPenalty s := by
  unfold difficultyPenalty
  have : (s.course_difficulty : ℚ) ≤ 5 := by exact_mod_cast h
  linarith

theorem difficultyPenalty_le_one {s : Strategy}
    (h : 1 ≤ s.course_difficulty) : difficultyPenalty s ≤ 1 := by
  unfold difficultyPenalty
  have : (1 : ℚ) ≤ (s.course_difficulty : ℚ) := by exact_mod_cast h
  linarith

theorem distractionPenalty_anti {s₁ s₂ : Strategy}
    (h : s₁.distraction_risk ≤ s₂.distraction_risk) :
    distractionPenalty s₂ ≤ distractionPenalty s₁ := by
  unfold distractionPenalty
  have : (s₁.distraction_risk : ℚ) ≤ (s₂.distraction_risk : ℚ) := by
    exact_mod_cast h
  linarith

theorem difficultyPenalty_anti {s₁ s₂ : Strategy}
    (h : s₁.course_difficulty ≤ s₂.course_difficulty) :
    difficultyPenalty s₂ ≤ difficultyPenalty s₁ := by
  unfold difficultyPenalty
  have : (s₁.course_difficulty : ℚ) ≤ (s₂.course_difficulty : ℚ) := by
    exact_mod_cast h
  linarith

theorem sessionFocus_congr {s₁ s₂ : Strategy}
    (h : s₁.session_minutes = s₂.session_minutes) :
    sessionFocus s₁ = sessionFocus s₂ := by
  unfold sessionFocus; rw [h]

theorem distractionPenalty_congr {s₁ s₂ : Strategy}
    (h : s₁.distraction_risk = s₂.distraction_risk) :
    distractionPenalty s₁ = distractionPenalty s₂ := by
  unfold distractionPenalty; rw [h]

theorem difficultyPenalty_congr {s₁ s₂ : Strategy}
    (h : s₁.course_difficulty = s₂.course_difficulty) :
    difficultyPenalty s₁ = difficultyPenalty s₂ := by
  unfold difficultyPenalty; rw [h]

/-- The weight-and-focus prefix `85 * method_w * env_w * break_w *
session_focus` of `base_eff` is nonnegative. -/
theorem effPrefix_nonneg (s : Strategy) :
    0 ≤ 85.0 * methodWeight s.method * environmentWeight s.environment *
      breakWeight s.break_style * sessionFocus s :=
  mul_nonneg
    (mul_nonneg
      (mul_nonneg (mul_nonneg (by norm_num) (methodWeight_pos _).le)
        (environmentWeight_pos _).le)
      (breakWeight_pos _).le)
    (sessionFocus_pos _).le

/-! ### C4 -/

/-- C4: for valid Scenarios agreeing on every field except
`distraction_risk` (resp. `course_difficulty`), the one with the larger
risk (resp. difficulty) has effectiveness at most the other's. -/
theorem effectiveness_monotone (s₁ s₂ : Strategy)
    (hv₁ : validScenario s₁) (hv₂ : validScenario s₂) :
    ((s₁.name = s₂.name ∧ s₁.method = s₂.method ∧
      s₁.session_minutes = s₂.session_minutes ∧
      s₁.sessions_per_week = s₂.sessions_per_week ∧
      s₁.environment = s₂.environment ∧ s₁.break_style = s₂.break_style ∧
      s₁.course_difficulty = s₂.course_difficulty) →
      s₁.distraction_risk ≤ s₂.distraction_risk →
      (simulate s₂).effectiveness ≤ (simulate s₁).effectiveness) ∧
    ((s₁.name = s₂.name ∧ s₁.method = s₂.method ∧
      s₁.session_minutes = s₂.session_minutes ∧
      s₁.sessions_per_week = s₂.sessions_per_week ∧
      s₁.environment = s₂.environment ∧ s₁.break_style = s₂.break_style ∧
      s₁.distraction_risk = s₂.distraction_risk) →
      s₁.course_difficulty ≤ s₂.course_difficulty →
      (simulate s₂).effectiveness ≤ (simulate s₁).effectiveness) := by
  constructor
  · rintro ⟨-, hm, hmin, -, he, hb, hd⟩ hle
    simp only [simulate]
    apply roundTo1_mono
    apply clamp_mono
    unfold baseEff
    rw [← hm, ← he, ← hb, ← sessionFocus_congr hmin,
      ← difficultyPenalty_congr hd]
    exact mul_le_mul_of_nonneg_right
      (mul_le_mul_of_nonneg_left (distractionPenalty_anti hle)
        (effPrefix_nonneg s₁))
      (difficultyPenalty_nonneg hv₁.2.2.2.2.2.1)
  · rintro ⟨-, hm, hmin, -, he, hb, hr⟩ hle
    simp only [simulate]
    apply roundTo1_mono
    apply clamp_mono
    unfold baseEff
    rw [← hm, ← he, ← hb, ← sessionFocus_congr hmin,
      ← distractionPenalty_congr hr]
    exact mul_le_mul_of_nonneg_left (difficultyPenalty_anti hle)
      (mul_nonneg (effPrefix_nonneg s₁)
        (distractionPenalty_nonneg hv₁.2.2.2.2.2.2.2))

/-- C4 witness: raising distraction risk from 2 to 4, and difficulty from
3 to 5, on the reference scenario never increases effectiveness. -/
theorem effectiveness_monotone_witness :
    (simulate specScenarioHighRisk).effectiveness ≤
      (simulate specScenario).effectiveness ∧
    (simulate specScenarioHarder).effectiveness ≤
      (simulate specScenario).effectiveness :=
  ⟨(effectiveness_monotone specScenario specScenarioHighRisk (by decide)
      (by decide)).1 (by decide) (by decide),
   (effectiveness_monotone specScenario specScenarioHarder (by decide)
      (by decide)).2 (by decide) (by decide)⟩

/-! ### C10 -/

/-- One multiplication step keeps a partial product inside `[0, 85]` when
the next factor lies in `[0, 1]`. -/
theorem mul_factor_step {a w : ℚ} (h0 : 0 ≤ a) (h85 : a ≤ 85)
    (hw0 : 0 ≤ w) (hw1 : w ≤ 1) : 0 ≤ a * w ∧ a * w ≤ 85 :=
  ⟨mul_nonneg h0 hw0, (mul_le_of_le_one_right h0 hw1).trans h85⟩

/-- C10: with distraction risk and difficulty in `[1, 5]`, every factor of
`base_eff` is at most 1, so effectiveness never exceeds 85 and the upper
clamp at 100 never binds. -/
theorem effectiveness_le_85 (s : Strategy)
    (hr1 : 1 ≤ s.distraction_risk) (hr2 : s.distraction_risk ≤ 5)
    (hd1 : 1 ≤ s.course_difficulty) (hd2 : s.course_difficulty ≤ 5) :
    (simulate s).effectiveness ≤ 85 := by
  simp only [simulate]
  have h1 := mul_factor_step (a := (85.0 : ℚ)) (by norm_num) (by norm_num)
    (methodWeight_pos s.method).le (methodWeight_le_one s.method)
  have h2 := mul_factor_step h1.1 h1.2
    (environmentWeight_pos s.environment).le
    (environmentWeight_le_one s.environment)
  have h3 := mul_factor_step h2.1 h2.2
    (breakWeight_pos s.break_style).le (breakWeight_le_one s.break_style)
  have h4 := mul_factor_step h3.1 h3.2
    (sessionFocus_pos s).le (sessionFocus_le_one s)
  have h5 := mul_factor_step h4.1 h4.2
    (distractionPenalty_nonneg hr2) (distractionPenalty_le_one hr1)
  have h6 := mul_factor_step h5.1 h5.2
    (difficultyPenalty_nonneg hd2) (difficultyPenalty_le_one hd1)
  have hbase : baseEff s ≤ 85 := by unfold baseEff; exact h6.2
  have hval : effectivenessVal s ≤ 85 := clamp_le (by norm_num) hbase
  simpa using roundTo1_le_int (n := 85) (by simpa using hval)

/-- C10 witness at the reference scenario. -/
theorem effectiveness_le_85_witness :
    (simulate specScenario).effectiveness ≤ 85 :=
  effectiveness_le_85 specScenario (by decide) (by decide) (by decide)
    (by decide)

/-! ### C5 -/

/-- C5: unknown categorical strings fall back to the default weights
(0.60 for method, 0.85 for environment and break style), and `simulate`
still returns a Result. -/
theorem unknown_strings_default (s : Strategy) :
    (s.method ∉ knownMethods → methodWeight s.method = 0.60) ∧
    (s.environment ∉ knownEnvironments →
      environmentWeight s.environment = 0.85) ∧
    (s.break_style ∉ knownBreakStyles → breakWeight s.break_style = 0.85) ∧
    ∃ r : Result, simulate s = r := by
  refine ⟨?_, ?_, ?_, ⟨simulate s, rfl⟩⟩
  · intro h
    simp only [knownMethods, List.mem_cons, List.not_mem_nil, or_false,
      not_or] at h
    obtain ⟨h1, h2, h3, h4, h5, h6, h7⟩ := h
    unfold methodWeight
    rw [if_neg h1, if_neg h2, if_neg h3, if_neg h4, if_neg h5, if_neg h6,
      if_neg h7]
  · intro h
    simp only [knownEnvironments, List.mem_cons, List.not_mem_nil, or_false,
      not_or] at h
    obtain ⟨h1, h2, h3, h4⟩ := h
    unfold environmentWeight
    rw [if_neg h1, if_neg h2, if_neg h3, if_neg h4]
  · intro h
    simp only [knownBreakStyles, List.mem_cons, List.not_mem_nil, or_false,
      not_or] at h
    obtain ⟨h1, h2, h3, h4⟩ := h
    unfold breakWeight
    rw [if_neg h1, if_neg h2, if_neg h3, if_neg h4]

/-- C5 witness: "meditation" / "park" / "napping" all hit the defaults. -/
theorem unknown_strings_default_witness :
    methodWeight "meditation" = 0.60 ∧
    environmentWeight "park" = 0.85 ∧
    breakWeight "napping" = 0.85 :=
  ⟨(unknown_strings_default unknownScenario).1 (by decide),
   (unknown_strings_default unknownScenario).2.1 (by decide),
   (unknown_strings_default unknownScenario).2.2.1 (by decide)⟩

/-! ### C9 -/

/-- C9: every Result carries at most 6 notes (one session-length note plus
five rule notes), so truncating the display to the first 6 never drops
one. -/
theorem notes_at_most_six (s : Strategy) :
    (simulate s).notes.length ≤ 6 ∧
    (simulate s).notes.take 6 = (simulate s).notes := by
  have hn : (simulate s).notes = sessionNotes s ++ ruleNotes s := by
    simp [simulate, notesOf]
  have hs : (sessionNotes s).length ≤ 1 := by
    unfold sessionNotes; split_ifs <;> simp
  have hr : (ruleNotes s).length ≤ 5 := by
    unfold ruleNotes; split_ifs <;> simp
  have hlen : (simulate s).notes.length ≤ 6 := by
    rw [hn, List.length_append]; omega
  exact ⟨hlen, List.take_of_length_le hlen⟩

/-! ### Python max/min selection lemmas -/

theorem pymax_spec {α β : Type} [LinearOrder β] (key : α → β) :
    ∀ (xs : List α) (x : α),
      (pymax key x xs = x ∧ ∀ y ∈ xs, key y ≤ key x) ∨
      (∃ l₁ l₂, xs = l₁ ++ pymax key x xs :: l₂ ∧
        key x < key (pymax key x xs) ∧
        (∀ y ∈ l₁, key y < key (pymax key x xs)) ∧
        ∀ y ∈ l₂, key y ≤ key (pymax key x xs)) := by
  intro xs
  induction xs with
  | nil => exact fun x => Or.inl ⟨rfl, by simp⟩
  | cons z xs ih =>
    intro x
    by_cases hxz : key x < key z
    · have hstep : pymax key x (z :: xs) = pymax key z xs := by
        unfold pymax
        simp [List.foldl_cons, if_pos hxz]
      rw [hstep]
      rcases ih z with ⟨heq, hall⟩ | ⟨l₁, l₂, hsplit, hgt, hl₁, hl₂⟩
      · refine Or.inr ⟨[], xs, ?_, ?_, by simp, ?_⟩
        · rw [heq]; rfl
        · rw [heq]; exact hxz
        · rw [heq]; exact hall
      · refine Or.inr ⟨z :: l₁, l₂, ?_, lt_trans hxz hgt, ?_, hl₂⟩
        · rw [List.cons_append, ← hsplit]
        · intro y hy
          rcases List.mem_cons.mp hy with h | h
          · rw [h]; exact hgt
          · exact hl₁ y h
    · have hstep : pymax key x (z :: xs) = pymax key x xs := by
        unfold pymax
        simp [List.foldl_cons, if_neg hxz]
      push_neg at hxz
      rw [hstep]
      rcases ih x with ⟨heq, hall⟩ | ⟨l₁, l₂, hsplit, hgt, hl₁, hl₂⟩
      · refine Or.inl ⟨heq, ?_⟩
        intro y hy
        rcases List.mem_cons.mp hy with h | h
        · rw [h]; exact hxz
        · exact hall y h
      · refine Or.inr ⟨z :: l₁, l₂, by rw [List.cons_append, ← hsplit], hgt, ?_, hl₂⟩
        intro y hy
        rcases List.mem_cons.mp hy with h | h
        · rw [h]; exact lt_of_le_of_lt hxz hgt
        · exact hl₁ y h

theorem pymax_isFirstMax {α β : Type} [LinearOrder β] (key : α → β)
    (x : α) (xs : List α) : isFirstMax key (x :: xs) (pymax key x xs) := by
  rcases pymax_spec key xs x with ⟨heq, hall⟩ | ⟨l₁, l₂, hsplit, hgt, hl₁, hl₂⟩
  · refine ⟨[], xs, ?_, by simp, ?_⟩
    · rw [heq]; rfl
    · rw [heq]; exact hall
  · refine ⟨x :: l₁, l₂, by rw [List.cons_append, ← hsplit], ?_, hl₂⟩
    intro y hy
    rcases List.mem_cons.mp hy with h | h
    · rw [h]; exact hgt
    · exact hl₁ y h

theorem pymin_spec {α β : Type} [LinearOrder β] (key : α → β) :
    ∀ (xs : List α) (x : α),
      (pymin key x xs = x ∧ ∀ y ∈ xs, key x ≤ key y) ∨
      (∃ l₁ l₂, xs = l₁ ++ pymin key x xs :: l₂ ∧
        key (pymin key x xs) < key x ∧
        (∀ y ∈ l₁, key (pymin key x xs) < key y) ∧
        ∀ y ∈ l₂, key (pymin key x xs) ≤ key y) := by
  intro xs
  induction xs with
  | nil => exact fun x => Or.inl ⟨rfl, by simp⟩
  | cons z xs ih =>
    intro x
    by_cases hzx : key z < key x
    · have hstep : pymin key x (z :: xs) = pymin key z xs := by
        unfold pymin
        simp [List.foldl_cons, if_pos hzx]
      rw [hstep]
      rcases ih z with ⟨heq, hall⟩ | ⟨l₁, l₂, hsplit, hgt, hl₁, hl₂⟩
      · refine Or.inr ⟨[], xs, ?_, ?_, by simp, ?_⟩
        · rw [heq]; rfl
        · rw [heq]; exact hzx
        · rw [heq]; exact hall
      · refine Or.inr ⟨z :: l₁, l₂, ?_, lt_trans hgt hzx, ?_, hl₂⟩
        · rw [List.cons_append, ← hsplit]
        · intro y hy
          rcases List.mem_cons.mp hy with h | h
          · rw [h]; exact hgt
          · exact hl₁ y h
    · have hstep : pymin key x (z :: xs) = pymin key x xs := by
        unfold pymin
        simp [List.foldl_cons, if_neg hzx]
      push_neg at hzx
      rw [hstep]
      rcases ih x with ⟨heq, hall⟩ | ⟨l₁, l₂, hsplit, hgt, hl₁, hl₂⟩
      · refine Or.inl ⟨heq, ?_⟩
        intro y hy
        rcases List.mem_cons.mp hy with h | h
        · rw [h]; exact hzx
        · exact hall y h
      · refine Or.inr ⟨z :: l₁, l₂, by rw [List.cons_append, ← hsplit], hgt, ?_, hl₂⟩
        intro y hy
        rcases List.mem_cons.mp hy with h | h
        · rw [h]; exact lt_of_lt_of_le hgt hzx
        · exact hl₁ y h

theorem pymin_isFirstMin {α β : Type} [LinearOrder β] (key : α → β)
    (x : α) (xs : List α) : isFirstMin key (x :: xs) (pymin key x xs) := by
  rcases pymin_spec key xs x with ⟨heq, hall⟩ | ⟨l₁, l₂, hsplit, hgt, hl₁, hl₂⟩
  · refine ⟨[], xs, ?_, by simp, ?_⟩
    · rw [heq]; rfl
    · rw [heq]; exact hall
  · refine ⟨x :: l₁, l₂, by rw [List.cons_append, ← hsplit], ?_, hl₂⟩
    intro y hy
    rcases List.mem_cons.mp hy with h | h
    · rw [h]; exact hgt
    · exact hl₁ y h

/-! ### C6 -/

/-- C6: on any input of at least two entries, each of the four reported
superlatives is the lowest-index entry attaining the extreme value; in
particular on effectiveness values [70, 90, 90] the second entry (first of
the tie) wins highest effectiveness. -/
theorem compare_superlatives :
    (∀ (x y : Strategy × Result) (rest : List (Strategy × Result)),
      ∃ e u f b, compare (x :: y :: rest) = .report e u f b ∧
        isFirstMax (fun p => p.2.effectiveness) (x :: y :: rest) e ∧
        isFirstMax (fun p => p.2.sustainability) (x :: y :: rest) u ∧
        isFirstMax (fun p => p.2.efficiency) (x :: y :: rest) f ∧
        isFirstMin (fun p => p.2.burnout_risk) (x :: y :: rest) b) ∧
    compare cmpEntries =
      .report (stratB, resB) (stratB, resB) (stratA, resA) (stratB, resB) := by
  constructor
  · intro x y rest
    refine ⟨_, _, _, _, ?_, pymax_isFirstMax _ x (y :: rest),
      pymax_isFirstMax _ x (y :: rest), pymax_isFirstMax _ x (y :: rest),
      pymin_isFirstMin _ x (y :: rest)⟩
    have hlen : ¬ ((x :: y :: rest).length < 2) := by simp
    simp [compare, hlen]
  · have hlen : ¬ ((cmpEntries).length < 2) := by simp [cmpEntries]
    norm_num [compare, hlen, cmpEntries, pymax, pymin, List.foldl_cons,
      List.foldl_nil, stratA, stratB, stratC, resA, resB, resC]

/-! ### C7 -/

/-- C7: with fewer than two entries, `compare` short-circuits and reports
the insufficient-data message instead of computing superlatives. -/
theorem compare_insufficient (rs : List (Strategy × Result))
    (h : rs.length < 2) : compare rs = .insufficient insufficientMsg := by
  unfold compare
  rw [if_pos h]

/-- C7 witness on a singleton input. -/
theorem compare_insufficient_witness :
    compare [(stratA, resA)] = .insufficient insufficientMsg :=
  compare_insufficient [(stratA, resA)] (by simp)

/-! ### C8 -/

/-- C8: after a run-simulation step, the cache holds exactly one entry
for the simulated scenario's name — the freshly computed result — and the
entries filed under every other name are unchanged. -/
theorem cache_last_write_wins (cache : List (Strategy × Result))
    (s : Strategy) :
    (runSimulationStep cache s).filter (fun p => p.1.name = s.name) =
      [(s, simulate s)] ∧
    ∀ n, n ≠ s.name →
      (runSimulationStep cache s).filter (fun p => p.1.name = n) =
        cache.filter (fun p => p.1.name = n) := by
  constructor
  · unfold runSimulationStep
    rw [List.filter_append]
    have h1 : (cache.filter fun p => p.1.name ≠ s.name).filter
        (fun p => p.1.name = s.name) = [] := by
      rw [List.filter_eq_nil_iff]
      intro a ha
      have := List.of_mem_filter ha
      simp at this ⊢
      exact this
    rw [h1]
    simp
  · intro n hn
    unfold runSimulationStep
    rw [List.filter_append]
    have h2 : ([(s, simulate s)] : List (Strategy × Result)).filter
        (fun p => p.1.name = n) = [] := by
      simp [Ne.symm hn]
    rw [h2, List.append_nil, List.filter_filter]
    apply List.filter_congr
    intro a _
    by_cases hcase : a.1.name = n
    · simp [hcase]
      exact hn
    · simp [hcase]

/-- C8 witness: re-simulating a scenario named "B" against a cache holding
"B" and "C" replaces the "B" entry and leaves "C" untouched. -/
theorem cache_last_write_wins_witness :
    (runSimulationStep demoCache stratB).filter
      (fun p => p.1.name = stratB.name) = [(stratB, simulate stratB)] ∧
    (runSimulationStep demoCache stratB).filter
      (fun p => p.1.name = "C") = demoCache.filter (fun p => p.1.name = "C") :=
  ⟨(cache_last_write_wins demoCache stratB).1,
   (cache_last_write_wins demoCache stratB).2 "C" (by decide)⟩

end StudySim
